import Mathlib

/-!
Verification of the hivebox temperature aggregation service.

This file gives a shallow embedding, in Lean 4, of the core logic of the
hivebox repository (sensor aggregation, temperature status mapping, the
flush worker, the durable-store adapter, the readiness evaluation and the
cached read path), and proves or refutes the frozen specification claims
about it.

Modelling conventions:
* Python `float` temperatures are modelled as rationals (`ℚ`).
* `datetime` values are modelled as absolute timestamps in integer seconds
  (`Timestamp := Int`); a `timedelta` is the integer difference in seconds.
  All timestamps on the modelled paths are timezone-aware, so an
  absolute-seconds model is faithful.
* Fallible external calls (HTTP fetches, object-store calls, the cache
  store) are modelled by passing their observable results in as explicit
  `Option`/`Except` valued parameters.
* Python code that can raise an exception to its caller is embedded in
  `Except String`; an `Except.error` value models an uncaught exception.
-/

namespace Hivebox

/-- Absolute time in integer seconds (timezone-aware `datetime`). -/
abbrev Timestamp := Int

/-! ### Python built-in round -/

/-- Python `round` of a real number to an integer: nearest integer, ties go
to the even integer (banker's rounding). -/
def round_half_even (q : ℚ) : Int :=
  if q - ⌊q⌋ < 1/2 then ⌊q⌋
  else if 1/2 < q - ⌊q⌋ then ⌊q⌋ + 1
  else if ⌊q⌋ % 2 = 0 then ⌊q⌋ else ⌊q⌋ + 1

/-- Python `round(x, 2)`: round to two decimal places. -/
def py_round2 (q : ℚ) : ℚ := (round_half_even (q * 100) : ℚ) / 100

/-! ### src/src/services/sensebox_service.py -/

/-- Model of the `lastMeasurement` object of one sensor in a senseBox
payload.  `value` is `none` when the `"value"` field is missing or not
convertible by `float`; `createdAt` is `none` when the `"createdAt"` field
is missing or not parsable by `datetime.fromisoformat`. -/
structure LastMeasurement where
  value : Option ℚ
  createdAt : Option Timestamp
deriving Repr, DecidableEq

/-- Model of one entry of the `sensors` array of a senseBox payload. -/
structure Sensor where
  title : String
  lastMeasurement : Option LastMeasurement
deriving Repr, DecidableEq

/-- Model of a senseBox JSON payload: `sensors` is `none` when the payload
has no `"sensors"` key. -/
structure BoxData where
  sensors : Option (List Sensor)
deriving Repr, DecidableEq

/-- One temperature measurement extracted from a payload
(`{"value": float, "timestamp": datetime}` in the source). -/
structure Measurement where
  value : ℚ
  timestamp : Timestamp
deriving Repr, DecidableEq

/-- Result of fetching one senseBox: `get_sensebox_data` returns the parsed
JSON payload, or `None` on any request/JSON failure.  An environment maps
each box id to that result. -/
abbrev FetchEnv := String → Option BoxData

/-- Inner loop of `extract_temperature_value`: scan the `sensors` array for
the first sensor whose `title` equals the phenomenon name and whose
`lastMeasurement` parses; a parse failure (`except ... : pass`) moves on to
the next sensor. -/
def extract_from_sensors (phenomenon : String) : List Sensor → Option Measurement
  | [] => none
  | sensor :: rest =>
    if sensor.title = phenomenon then
      match sensor.lastMeasurement with
      | some lm =>
        match lm.value, lm.createdAt with
        | some v, some ts => some { value := v, timestamp := ts }
        | _, _ => extract_from_sensors phenomenon rest
      | none => extract_from_sensors phenomenon rest
    else
      extract_from_sensors phenomenon rest

/-- Embedding of `SenseBoxService.extract_temperature_value`: returns the value and
timestamp of the first matching, parsable temperature sensor, or `none`
when the payload has no `sensors` array or no usable sensor. -/
def extract_temperature_value (phenomenon : String) (box_data : BoxData) :
    Option Measurement :=
  match box_data.sensors with
  | none => none
  | some sensors => extract_from_sensors phenomenon sensors

/-- Embedding of `SenseBoxService.is_data_fresh`: data is fresh when
`now - timestamp <= timedelta(hours=max_age_hours)`. -/
def is_data_fresh (now timestamp : Timestamp) (max_age_hours : Int) : Bool :=
  now - timestamp ≤ max_age_hours * 3600

/-- Loop body of `get_average_temperature_with_sources`: for one box id,
fetch the payload, extract the temperature, and when it is fresh append the
value to `temperatures` and the id to `used_ids`; any failure leaves the
accumulator unchanged. -/
def agg_step (phenomenon : String) (env : FetchEnv) (now : Timestamp)
    (acc : List ℚ × List String) (box_id : String) : List ℚ × List String :=
  match env box_id with
  | some box_data =>
    match extract_temperature_value phenomenon box_data with
    | some temp_data =>
      if is_data_fresh now temp_data.timestamp 1 then
        (acc.1 ++ [temp_data.value], acc.2 ++ [box_id])
      else acc
    | none => acc
  | none => acc

/-- Embedding of `SenseBoxService.get_average_temperature_with_sources`: iterate over the
selected ids collecting fresh temperatures and contributing ids, then
return `(None, [])` when no temperatures were collected, else the pair of
the arithmetic mean and the contributing ids.  NOTE: the source function
returns this 2-tuple; it computes no `newest` timestamp (see claim C1). -/
def get_average_temperature_with_sources (phenomenon : String) (env : FetchEnv)
    (now : Timestamp) (selected_ids : List String) : Option ℚ × List String :=
  let r := selected_ids.foldl (agg_step phenomenon env now) ([], [])
  if r.1.isEmpty then (none, [])
  else (some (r.1.sum / (r.1.length : ℚ)), r.2)

/-- Loop body of `get_average_temperature_for_fresh_data` (the variant used
by the `/temperature` route): collect only the fresh temperature values. -/
def avg_step (phenomenon : String) (env : FetchEnv) (now : Timestamp)
    (acc : List ℚ) (box_id : String) : List ℚ :=
  match env box_id with
  | some box_data =>
    match extract_temperature_value phenomenon box_data with
    | some temp_data =>
      if is_data_fresh now temp_data.timestamp 1 then acc ++ [temp_data.value]
      else acc
    | none => acc
  | none => acc

/-- Embedding of `SenseBoxService.get_average_temperature_for_fresh_data`. -/
def get_average_temperature_for_fresh_data (phenomenon : String)
    (env : FetchEnv) (now : Timestamp) (box_ids : List String) : Option ℚ :=
  let temperatures := box_ids.foldl (avg_step phenomenon env now) []
  if temperatures.isEmpty then none
  else some (temperatures.sum / (temperatures.length : ℚ))

/-- The fresh measurement one device contributes, if any: the device's
fetched payload must parse to a measurement whose timestamp is fresh.  Used
to state the claims about which devices contribute to the aggregate. -/
def fresh_value (phenomenon : String) (env : FetchEnv) (now : Timestamp)
    (box_id : String) : Option ℚ :=
  match env box_id with
  | some box_data =>
    match extract_temperature_value phenomenon box_data with
    | some temp_data =>
      if is_data_fresh now temp_data.timestamp 1 then some temp_data.value
      else none
    | none => none
  | none => none

/-! ### src/src/services/minio_service.py -/

/-- The `TemperatureRecord` dataclass. -/
structure TemperatureRecord where
  average_temperature : ℚ
  timestamp : Timestamp
  source_hivebox_ids : List String
deriving Repr, DecidableEq

/-- Embedding of `build_temperature_record`: stamps a record with the current UTC time.
(The source's `source_hivebox_ids or []` only replaces `None` by the empty
list; every caller in the repository passes an actual list.) -/
def build_temperature_record (average_temperature : ℚ) (now : Timestamp)
    (source_hivebox_ids : List String) : TemperatureRecord :=
  ⟨average_temperature, now, source_hivebox_ids⟩

/-- Metadata of one object returned by `list_objects`: its key and its
last-modified time (`None` when the store reports none). -/
structure ObjectEntry where
  object_name : String
  last_modified : Option Timestamp
deriving Repr, DecidableEq

/-- Embedding of `_sort_key` in `get_latest_record`:
`obj.last_modified or obj.object_name` — the last-modified `datetime` when
present (always truthy), else the object key, a Python `str`. -/
def sort_key (obj : ObjectEntry) : Sum Timestamp String :=
  match obj.last_modified with
  | some t => Sum.inl t
  | none => Sum.inr obj.object_name

/-- Python `>` on the values `_sort_key` can produce: datetimes compare with
datetimes, strings with strings, and a mixed comparison raises `TypeError`. -/
def py_gt : Sum Timestamp String → Sum Timestamp String → Except String Bool
  | Sum.inl a, Sum.inl b => Except.ok (decide (b < a))
  | Sum.inr a, Sum.inr b => Except.ok (decide (b < a))
  | _, _ => Except.error "TypeError"

/-- Tail of Python `max(objects, key=_sort_key)`: keep the current maximum,
replacing it whenever a later element's key compares strictly greater. -/
def py_max_go (cur : ObjectEntry) : List ObjectEntry → Except String ObjectEntry
  | [] => Except.ok cur
  | obj :: rest => do
    let b ← py_gt (sort_key obj) (sort_key cur)
    py_max_go (if b then obj else cur) rest

/-- Python `max(objects, key=_sort_key)` (objects is non-empty at the call
site; `max` of an empty sequence raises `ValueError`). -/
def py_max_by : List ObjectEntry → Except String ObjectEntry
  | [] => Except.error "ValueError"
  | obj :: rest => py_max_go obj rest

/-- The JSON dictionary of a fetched record object, after `json.loads`
succeeded.  For the `"timestamp"` and `"average_temperature"` fields,
`none` models a missing key (`payload[...]` raises `KeyError`) and
`some none` a present but unconvertible value (`datetime.fromisoformat` /
`float` raise `ValueError`/`TypeError`). -/
structure StoredPayload where
  average_temperature : Option (Option ℚ)
  timestamp : Option (Option Timestamp)
  source_hivebox_ids : Option (List String)
deriving Repr, DecidableEq

/-- Observable behaviour of the object store backing `get_latest_record`:
the outcome of `list_objects` and, per object key, the outcome of
`get_object` + `read` + `json.loads` (an `Except.error` is any failure
absorbed by the source's try/except blocks). -/
structure StoreEnv where
  list_result : Except Unit (List ObjectEntry)
  get_result : String → Except Unit StoredPayload

/-- Embedding of `MinioService.get_latest_record`.  Listing failures and fetch/decode
failures are absorbed to `none`; but the `datetime.fromisoformat(
payload["timestamp"])` and `float(payload["average_temperature"])` calls
sit OUTSIDE the try/except blocks, so a missing or unconvertible field
raises to the caller (modelled as `Except.error`); so does a `TypeError`
from `max` on mixed sort keys. -/
def get_latest_record (env : StoreEnv) : Except String (Option TemperatureRecord) :=
  match env.list_result with
  | Except.error _ => Except.ok none
  | Except.ok objects =>
    if objects.isEmpty then Except.ok none
    else
      match py_max_by objects with
      | Except.error e => Except.error e
      | Except.ok latest_object =>
        match env.get_result latest_object.object_name with
        | Except.error _ => Except.ok none
        | Except.ok payload =>
          match payload.timestamp with
          | none => Except.error "KeyError"
          | some none => Except.error "ValueError"
          | some (some ts) =>
            match payload.average_temperature with
            | none => Except.error "KeyError"
            | some none => Except.error "ValueError"
            | some (some avg) =>
              Except.ok (some ⟨avg, ts, payload.source_hivebox_ids.getD []⟩)

/-! ### src/src/background/temperature_flusher.py -/

/-- Mutable module state of the flush worker together with the observable
durable store: `minio_configured` models whether `MinioService.from_env()`
yields a service, `records` is the in-memory buffer `_temperature_records`,
and `stored` is the sequence of records written durably by
`put_temperature_records`. -/
structure FlusherState where
  minio_configured : Bool
  records : List TemperatureRecord
  stored : List TemperatureRecord
deriving Repr, DecidableEq

/-- Embedding of `collect_temperature_record`: build a record stamped with the current
UTC time and append it to the buffer under `_records_lock`; returns the
record. -/
def collect_temperature_record (average_temperature : ℚ)
    (source_hivebox_ids : List String) (now : Timestamp) (st : FlusherState) :
    TemperatureRecord × FlusherState :=
  let record := build_temperature_record average_temperature now source_hivebox_ids
  (record, { st with records := st.records ++ [record] })

/-- Embedding of `_flush_collected_records`: nothing to do when MinIO is unconfigured or
the buffer is empty; otherwise atomically drain the whole buffer under the
lock, then write every drained record to the durable store. -/
def flush_collected_records (st : FlusherState) : Nat × FlusherState :=
  if st.minio_configured = false then (0, st)
  else if st.records.isEmpty then (0, st)
  else (st.records.length,
    { st with records := [], stored := st.stored ++ st.records })

/-- Embedding of `flush_temperature_records`: `(0, False)` without touching the buffer
when MinIO is unconfigured, else the drained count and `True`. -/
def flush_temperature_records (st : FlusherState) : (Nat × Bool) × FlusherState :=
  if st.minio_configured = false then ((0, false), st)
  else
    let r := flush_collected_records st
    ((r.1, true), r.2)

/-- N successive `collect_temperature_record` calls, each given the value,
the source ids and the collection time. -/
def collect_many : List (ℚ × List String × Timestamp) → FlusherState → FlusherState
  | [], st => st
  | input :: rest, st =>
    collect_many rest (collect_temperature_record input.1 input.2.1 input.2.2 st).2

/-! ### src/src/services/temperature_service.py -/

/-- Embedding of `TemperatureService.get_temperature_status`. -/
def get_temperature_status (temperature : ℚ) : String :=
  if temperature < 10 then "Too Cold"
  else if temperature ≤ 36 then "Good"
  else "Too Hot"

/-- The `TemperatureResponse` dataclass (also the shape of the serialized
cache payload: `_serialize_temperature_response` writes exactly these three
fields). -/
structure TemperatureResponse where
  average_temperature : ℚ
  status : String
  data_age_seconds : Option Int
deriving Repr, DecidableEq

/-- Embedding of `get_latest_temperature_response`.  The live aggregate triple
`(average, sources, newest_timestamp)` is the `agg` parameter: in the
source it is unpacked from `get_average_temperature_with_sources()` —
which actually returns a 2-tuple (see claim C1) — so this embedding models
the function body as exercised by the repository's own unit tests, which
stub the aggregator with a 3-tuple.  `latest_record` is the composite
outcome of `MinioService.from_env()` (outer `Option`) and
`get_latest_record()` (inner `Option`).  Returns the response and the flush
worker's state after the call. -/
def get_latest_temperature_response
    (agg : Option ℚ × List String × Option Timestamp)
    (latest_record : Option (Option TemperatureRecord))
    (now : Timestamp) (st : FlusherState) :
    Option TemperatureResponse × FlusherState :=
  match agg.1 with
  | none =>
    match latest_record with
    | none => (none, st)
    | some none => (none, st)
    | some (some record) =>
      let rounded_average := py_round2 record.average_temperature
      (some ⟨rounded_average, get_temperature_status rounded_average,
        some (now - record.timestamp)⟩, st)
  | some average =>
    let rounded_average := py_round2 average
    let st2 := (collect_temperature_record rounded_average agg.2.1 now st).2
    (some ⟨rounded_average, get_temperature_status rounded_average,
      agg.2.2.map (fun ts => now - ts)⟩, st2)

/-- Observable cache-store state for the refresh path: the payload stored
under `CACHE_KEY_LATEST` (kept in deserialized form; the source stores its
verbatim JSON serialization) and whether the `CACHE_LOCK_KEY` refresh-lock
key currently exists. -/
structure CacheState where
  cached : Option TemperatureResponse
  lock_held : Bool
deriving Repr, DecidableEq

/-- Embedding of `ValkeyService.acquire_lock` (`SET key NX EX ttl`): succeeds iff the
lock key is absent, creating it. -/
def acquire_lock (c : CacheState) : Bool × CacheState :=
  if c.lock_held then (false, c) else (true, { c with lock_held := true })

/-- Embedding of `ValkeyService.release_lock` (`DEL key`). -/
def release_lock (c : CacheState) : CacheState := { c with lock_held := false }

/-- Embedding of `_refresh_cached_temperature_response`.  `valkey_configured` models
`valkey_service is None`; `recompute` is the outcome of the inner
`get_latest_temperature_response()` call, with `Except.error` modelling the
call raising.  Returns the final cache state and the exception, if any,
that propagates out of the function (the `finally` block releases the lock
either way). -/
def refresh_cached_temperature_response (valkey_configured : Bool)
    (recompute : Except String (Option TemperatureResponse))
    (c : CacheState) : CacheState × Except String Unit :=
  if valkey_configured = false then (c, Except.ok ())
  else
    match acquire_lock c with
    | (false, c1) => (c1, Except.ok ())
    | (true, c1) =>
      match recompute with
      | Except.error e => (release_lock c1, Except.error e)
      | Except.ok none => (release_lock c1, Except.ok ())
      | Except.ok (some response) =>
        (release_lock { c1 with cached := some response }, Except.ok ())

/-! ### src/src/routes/temperature.py -/

/-- JSON body of a successful `/temperature` response. -/
structure TemperatureBody where
  average_temperature : ℚ
  status : String
deriving Repr, DecidableEq

/-- Outcome of the `/temperature` route: a 200 body or the 503 error body. -/
inductive RouteResult
  | ok : TemperatureBody → RouteResult
  | unavailable : RouteResult
deriving Repr, DecidableEq

/-- The `temperature()` handler in routes/temperature.py: compute the live
average; when it is `None`, fall back to the latest MinIO record
(`latest_record` as in `get_latest_temperature_response`); 503 when both
are empty.  NOTE: the handler then calls `collect_temperature_record`
unconditionally — also when the value came from the MinIO fallback (see
claim C2). -/
def temperature_route (phenomenon : String) (env : FetchEnv) (now : Timestamp)
    (sensebox_ids : List String)
    (latest_record : Option (Option TemperatureRecord))
    (collect_time : Timestamp) (st : FlusherState) :
    RouteResult × FlusherState :=
  let avg0 := get_average_temperature_for_fresh_data phenomenon env now sensebox_ids
  let fb :=
    match avg0 with
    | none =>
      match latest_record with
      | some (some record) =>
        (some record.average_temperature, record.source_hivebox_ids)
      | _ => (none, sensebox_ids)
    | some v => (some v, sensebox_ids)
  match fb.1 with
  | none => (RouteResult.unavailable, st)
  | some avg_temp =>
    let rounded_temp := py_round2 avg_temp
    let st2 := (collect_temperature_record rounded_temp fb.2 collect_time st).2
    (RouteResult.ok ⟨rounded_temp, get_temperature_status rounded_temp⟩, st2)

/-! ### src/src/routes/readyz.py -/

/-- Constant `CACHE_TTL_SECONDS` from temperature_service.py. -/
def CACHE_TTL_SECONDS : Int := 60

/-- Constant `CACHE_MAX_AGE_MINUTES` from routes/readyz.py. -/
def CACHE_MAX_AGE_MINUTES : Int := 5

/-- Embedding of `get_cache_age_seconds`: `None` when the cache store is unconfigured or
the key reports no TTL (`valkey_service.ttl` maps negative replies to
`None`), else `max(0, CACHE_TTL_SECONDS - ttl)`. -/
def get_cache_age_seconds (valkey_configured : Bool) (ttl : Option Int) :
    Option Int :=
  if valkey_configured = false then none
  else
    match ttl with
    | none => none
    | some t => some (max 0 (CACHE_TTL_SECONDS - t))

/-- Status and HTTP code of a `/readyz` response. -/
structure ReadyzResult where
  status : String
  http_code : Nat
deriving Repr, DecidableEq

/-- Decision block of the `readyz()` handler (readyz.py:75-112), given the
accessibility counts and the cache age: not ready iff more than
`total // 2` devices are inaccessible AND the cache age is present and
exceeds `CACHE_MAX_AGE_MINUTES * 60` seconds.  In the shipped code this
block is unreachable: the handler obtains the counts from
`check_sensebox_accessibility`, which raises (see `readyz_route` and
claim C4). -/
def readyz_decision (accessible total : Nat) (cache_age_seconds : Option Int) :
    ReadyzResult :=
  let inaccessible := total - accessible
  let threshold := total / 2
  let too_many_inaccessible : Bool := decide (inaccessible > threshold)
  let cache_too_old : Bool :=
    match cache_age_seconds with
    | some age => decide (age > CACHE_MAX_AGE_MINUTES * 60)
    | none => false
  if too_many_inaccessible && cache_too_old then ⟨"not_ready", 503⟩
  else ⟨"ready", 200⟩

/-- The configured `SENSEBOX_IDS` list (temperature_service.py, imported by
routes/readyz.py). -/
def SENSEBOX_IDS : List String :=
  ["5c647389a100840019eea656", "66268770eaca630008ec4f9e",
   "6570eb180db9850007f21abe"]

/-- Embedding of `check_sensebox_accessibility` (readyz.py:26-39): the loop
calls `sensebox_service.is_box_accessible(box_id)` for each configured id,
but `SenseBoxService` defines no method of that name anywhere in the
repository, so the first iteration raises `AttributeError`; only with zero
configured ids does the loop body never run, returning `(0, 0)`. -/
def check_sensebox_accessibility (box_ids : List String) :
    Except String (Nat × Nat) :=
  match box_ids with
  | [] => Except.ok (0, 0)
  | _ :: _ => Except.error "AttributeError"

/-- Embedding of the `readyz()` handler (readyz.py:59-112): first the
accessibility probe (whose exception propagates out of the handler), then
the cache age, then the decision block. -/
def readyz_route (box_ids : List String) (valkey_configured : Bool)
    (ttl : Option Int) : Except String ReadyzResult :=
  match check_sensebox_accessibility box_ids with
  | Except.error e => Except.error e
  | Except.ok (accessible, total) =>
    Except.ok (readyz_decision accessible total
      (get_cache_age_seconds valkey_configured ttl))

/-! ### Concrete inputs used by counterexamples and witnesses -/

/-- Concrete senseBox payload: one sensor titled "Temperatur" whose last
measurement has value 20 and the given observation timestamp. -/
def c1_box (createdAt : Timestamp) : BoxData :=
  ⟨some [⟨"Temperatur", some ⟨some 20, some createdAt⟩⟩]⟩

/-- Environment in which the single box "box-1" answers with `c1_box`. -/
def c1_env (createdAt : Timestamp) : FetchEnv :=
  fun box_id => if box_id = "box-1" then some (c1_box createdAt) else none

/-- Store environment with one listed object whose fetched payload has no
`"timestamp"` field. -/
def c5_env : StoreEnv :=
  ⟨Except.ok [⟨"temperature/2026/01/01/120000.json", some 1200⟩],
   fun _ => Except.ok ⟨some (some 22), none, some ["box-1"]⟩⟩

/-! ## Helper lemmas -/

/-- The aggregation loop body acts on the accumulator exactly as dictated
by `fresh_value`. -/
lemma agg_step_eq (phenomenon : String) (env : FetchEnv) (now : Timestamp)
    (acc : List ℚ × List String) (box_id : String) :
    agg_step phenomenon env now acc box_id
      = match fresh_value phenomenon env now box_id with
        | some v => (acc.1 ++ [v], acc.2 ++ [box_id])
        | none => acc := by
  cases henv : env box_id with
  | none => simp [agg_step, fresh_value, henv]
  | some box_data =>
    cases hx : extract_temperature_value phenomenon box_data with
    | none => simp [agg_step, fresh_value, henv, hx]
    | some temp_data =>
      by_cases h : is_data_fresh now temp_data.timestamp 1 <;>
        simp [agg_step, fresh_value, henv, hx, h]

/-- Characterization of the aggregation fold: it appends exactly the fresh
values and the ids of the devices that contributed them. -/
lemma agg_foldl_characterization (phenomenon : String) (env : FetchEnv)
    (now : Timestamp) (ids : List String) :
    ∀ acc : List ℚ × List String,
      List.foldl (agg_step phenomenon env now) acc ids
        = (acc.1 ++ List.filterMap (fresh_value phenomenon env now) ids,
           acc.2 ++ (ids.filter
             (fun box_id => (fresh_value phenomenon env now box_id).isSome))) := by
  induction ids with
  | nil => intro acc; simp
  | cons box_id rest ih =>
    intro acc
    rw [List.foldl_cons, agg_step_eq]
    cases h : fresh_value phenomenon env now box_id with
    | none =>
      rw [ih]
      simp [List.filterMap_cons, List.filter_cons, h]
    | some v =>
      rw [ih]
      simp [List.filterMap_cons, List.filter_cons, h]

/-- Effect of a sequence of collect calls on the flush worker state. -/
lemma collect_many_spec (inputs : List (ℚ × List String × Timestamp)) :
    ∀ st : FlusherState,
      collect_many inputs st
        = { st with records := st.records
            ++ inputs.map (fun input =>
                 build_temperature_record input.1 input.2.2 input.2.1) } := by
  induction inputs with
  | nil => intro st; simp [collect_many]
  | cons input rest ih =>
    intro st
    rw [collect_many, ih]
    simp [collect_temperature_record]

/-! ## Claims -/

/-- Claim C6: for every timezone-aware timestamp and delta
`d = now - observedAt`, the freshness predicate (with its default maximum
age of one hour) returns true iff `d ≤ 1` hour; in particular a
measurement exactly one hour old is fresh (the boundary is inclusive). -/
theorem c6_freshness_boundary_inclusive :
    (∀ now observedAt : Timestamp,
      is_data_fresh now observedAt 1 = true ↔ now - observedAt ≤ 3600) ∧
    (∀ now : Timestamp, is_data_fresh now (now - 3600) 1 = true) := by
  constructor
  · intro now observedAt
    simp [is_data_fresh]
  · intro now
    simp [is_data_fresh]

/-- Claim C8: the status mapping returns "Too Cold" iff `t < 10`, "Good"
iff `10 ≤ t ≤ 36`, "Too Hot" iff `t > 36`; the boundary values `10` and
`36` map to "Good" and `36.0000001` maps to "Too Hot". -/
theorem c8_status_mapping :
    (∀ t : ℚ,
      (get_temperature_status t = "Too Cold" ↔ t < 10) ∧
      (get_temperature_status t = "Good" ↔ 10 ≤ t ∧ t ≤ 36) ∧
      (get_temperature_status t = "Too Hot" ↔ 36 < t)) ∧
    get_temperature_status 10 = "Good" ∧
    get_temperature_status 36 = "Good" ∧
    get_temperature_status (360000001 / 10000000) = "Too Hot" := by
  have hgen : ∀ t : ℚ,
      (get_temperature_status t = "Too Cold" ↔ t < 10) ∧
      (get_temperature_status t = "Good" ↔ 10 ≤ t ∧ t ≤ 36) ∧
      (get_temperature_status t = "Too Hot" ↔ 36 < t) := by
    intro t
    unfold get_temperature_status
    by_cases h1 : t < 10
    · rw [if_pos h1]
      exact ⟨iff_of_true rfl h1,
        iff_of_false (by decide) (fun h => absurd h1 (not_lt.mpr h.1)),
        iff_of_false (by decide)
          (fun h => absurd h1 (not_lt.mpr (le_trans (by norm_num) h.le)))⟩
    · by_cases h2 : t ≤ 36
      · rw [if_neg h1, if_pos h2]
        exact ⟨iff_of_false (by decide) h1,
          iff_of_true rfl ⟨not_lt.mp h1, h2⟩,
          iff_of_false (by decide) (not_lt.mpr h2)⟩
      · rw [if_neg h1, if_neg h2]
        exact ⟨iff_of_false (by decide) h1,
          iff_of_false (by decide) (fun h => absurd h.2 h2),
          iff_of_true rfl (not_le.mp h2)⟩
  exact ⟨hgen, (hgen 10).2.1.mpr (by norm_num),
    (hgen 36).2.1.mpr (by norm_num), (hgen _).2.2.mpr (by norm_num)⟩

/-- Claim C7: the aggregate result is exactly determined by the multiset of
fresh per-device temperatures: when it is non-empty, the average is the
unweighted arithmetic mean of exactly those values and the sources list is
exactly the devices that contributed a fresh measurement (devices with
stale, missing or invalid data appear in neither); when no device yields
fresh data the result is the empty result `(None, [])`. -/
theorem c7_average_and_sources (phenomenon : String) (env : FetchEnv)
    (now : Timestamp) (selected_ids : List String) :
    get_average_temperature_with_sources phenomenon env now selected_ids
      = (if (selected_ids.filterMap (fresh_value phenomenon env now)).isEmpty
         then (none, [])
         else
           (some ((selected_ids.filterMap (fresh_value phenomenon env now)).sum
              / ((selected_ids.filterMap (fresh_value phenomenon env now)).length : ℚ)),
            selected_ids.filter
              (fun box_id => (fresh_value phenomenon env now box_id).isSome))) := by
  unfold get_average_temperature_with_sources
  rw [agg_foldl_characterization]
  simp

/-- Claim C1 (code bug): the aggregation operation
`get_average_temperature_with_sources` returns only the pair
`(average, sources)` and computes no `newest` timestamp.  Evaluated at two
environments that differ solely in the fresh measurement's `observedAt`
(900 versus 500, both fresh at `now = 1000`), it returns the identical
value `(some 20, ["box-1"])`: no component of the result carries the
maximum `observedAt` claimed by the spec, and the caller
`get_latest_temperature_response`, which unpacks three values from this
2-tuple, raises `ValueError` on every live aggregation. -/
theorem c1_no_newest_component :
    get_average_temperature_with_sources "Temperatur" (c1_env 900) 1000 ["box-1"]
        = (some 20, ["box-1"]) ∧
    get_average_temperature_with_sources "Temperatur" (c1_env 500) 1000 ["box-1"]
        = (some 20, ["box-1"]) ∧
    get_average_temperature_with_sources "Temperatur" (c1_env 900) 1000 ["box-1"]
        = get_average_temperature_with_sources "Temperatur" (c1_env 500) 1000 ["box-1"] := by
  have h1 : get_average_temperature_with_sources "Temperatur" (c1_env 900) 1000 ["box-1"]
      = (some 20, ["box-1"]) := by
    simp [get_average_temperature_with_sources, agg_step, c1_env, c1_box,
      extract_temperature_value, extract_from_sensors, is_data_fresh]
  have h2 : get_average_temperature_with_sources "Temperatur" (c1_env 500) 1000 ["box-1"]
      = (some 20, ["box-1"]) := by
    simp [get_average_temperature_with_sources, agg_step, c1_env, c1_box,
      extract_temperature_value, extract_from_sensors, is_data_fresh]
  exact ⟨h1, h2, h1.trans h2.symm⟩

/-- Claim C3: with durable storage configured, N collect calls followed by
one flush persist exactly the N buffered records, in order, and leave the
buffer empty; a flush with an empty buffer performs zero durable writes;
and a flush with durable storage unconfigured returns `(0, False)` and
leaves the whole state unchanged. -/
theorem c3_flush_correctness
    (inputs : List (ℚ × List String × Timestamp))
    (st stEmpty stNoMinio : FlusherState)
    (hconf : st.minio_configured = true) (hbuf : st.records = [])
    (heConf : stEmpty.minio_configured = true) (heBuf : stEmpty.records = [])
    (hn : stNoMinio.minio_configured = false) :
    ((flush_temperature_records (collect_many inputs st)).1 = (inputs.length, true)
      ∧ (flush_temperature_records (collect_many inputs st)).2.records = []
      ∧ (flush_temperature_records (collect_many inputs st)).2.stored
          = st.stored ++ inputs.map (fun input =>
              build_temperature_record input.1 input.2.2 input.2.1))
    ∧ (flush_temperature_records stEmpty).2.stored = stEmpty.stored
    ∧ flush_temperature_records stNoMinio = ((0, false), stNoMinio) := by
  refine ⟨?_, ?_, ?_⟩
  · rw [collect_many_spec]
    cases inputs with
    | nil =>
      simp [flush_temperature_records, flush_collected_records, hconf, hbuf]
    | cons input rest =>
      simp [flush_temperature_records, flush_collected_records, hconf, hbuf]
  · simp [flush_temperature_records, flush_collected_records, heConf, heBuf]
  · simp [flush_temperature_records, hn]

/-- Witness for C3: two collects then a flush persist exactly those two
records and empty the buffer; an empty-buffer flush writes nothing; an
unconfigured flush returns `(0, False)` and changes nothing. -/
theorem c3_flush_correctness_witness :
    ((flush_temperature_records (collect_many
        [((20 : ℚ), ["a"], (100 : Int)), (21, ["b"], 200)]
        ⟨true, [], []⟩)).1 = (2, true)
      ∧ (flush_temperature_records (collect_many
          [((20 : ℚ), ["a"], (100 : Int)), (21, ["b"], 200)]
          ⟨true, [], []⟩)).2.records = []
      ∧ (flush_temperature_records (collect_many
          [((20 : ℚ), ["a"], (100 : Int)), (21, ["b"], 200)]
          ⟨true, [], []⟩)).2.stored
          = [build_temperature_record 20 100 ["a"],
             build_temperature_record 21 200 ["b"]])
    ∧ (flush_temperature_records ⟨true, [], [⟨1, 2, ["z"]⟩]⟩).2.stored
        = [⟨1, 2, ["z"]⟩]
    ∧ flush_temperature_records ⟨false, [⟨3, 4, ["w"]⟩], []⟩
        = ((0, false), ⟨false, [⟨3, 4, ["w"]⟩], []⟩) := by
  have h := c3_flush_correctness
    [((20 : ℚ), ["a"], (100 : Int)), (21, ["b"], 200)]
    ⟨true, [], []⟩ ⟨true, [], [⟨1, 2, ["z"]⟩]⟩ ⟨false, [⟨3, 4, ["w"]⟩], []⟩
    rfl rfl rfl rfl rfl
  simpa using h

/-- Claim C4 (code bug): the handler's decision block does encode the
claimed rule — not-ready iff more than `total // 2` devices are
inaccessible AND the cache age is present and exceeds 300 seconds, with an
absent age never counting — but that block is unreachable: the handler
first calls `check_sensebox_accessibility`, whose loop invokes
`sensebox_service.is_box_accessible`, a method defined nowhere in the
repository, so with the shipped three-element `SENSEBOX_IDS` every
`readyz()` call raises `AttributeError` (regardless of cache state) and
never reports ready or not-ready. -/
theorem c4_readyz_raises :
    readyz_route SENSEBOX_IDS true (some 30) = Except.error "AttributeError" ∧
    readyz_route SENSEBOX_IDS false none = Except.error "AttributeError" ∧
    (∀ (accessible total : Nat) (cache_age_seconds : Option Int),
      readyz_decision accessible total cache_age_seconds = ⟨"not_ready", 503⟩
        ↔ (total - accessible > total / 2
            ∧ ∃ age, cache_age_seconds = some age ∧ age > 300)) := by
  refine ⟨rfl, rfl, ?_⟩
  intro accessible total cache_age_seconds
  cases cache_age_seconds with
  | none =>
    simp [readyz_decision, ReadyzResult.mk.injEq]
  | some age =>
    by_cases h1 : total - accessible > total / 2
    · by_cases h2 : age > CACHE_MAX_AGE_MINUTES * 60
      · simp_all [readyz_decision, ReadyzResult.mk.injEq, CACHE_MAX_AGE_MINUTES]
      · simp_all [readyz_decision, ReadyzResult.mk.injEq, CACHE_MAX_AGE_MINUTES]
    · simp_all [readyz_decision, ReadyzResult.mk.injEq, CACHE_MAX_AGE_MINUTES]

/-- Claim C5 (code bug): `get_latest_record` absorbs listing failures, but
when the fetched payload of the selected object lacks a parsable
`"timestamp"` field, the `datetime.fromisoformat(payload["timestamp"])`
call sits outside the try/except blocks and the resulting `KeyError`
propagates to the caller instead of yielding "no record". -/
theorem c5_get_latest_record_raises :
    get_latest_record c5_env = Except.error "KeyError" ∧
    get_latest_record ⟨Except.error (), c5_env.get_result⟩ = Except.ok none := by
  exact ⟨rfl, rfl⟩

/-- Claim C2 (code bug): a `/temperature` read that falls back to the
durable store (all live fetches fail, a persisted record exists) appends a
record to the flush worker's buffer: starting from an empty buffer, the
handler re-collects the fallback value 21 with the stored source ids, so
the buffer after the read differs from the buffer before. -/
theorem c2_fallback_read_collects :
    temperature_route "Temperatur" (fun _ => none) 1000 ["box-1"]
        (some (some ⟨21, 100, ["box-9"]⟩)) 500 ⟨true, [], []⟩
      = (RouteResult.ok ⟨21, "Good"⟩,
         ⟨true, [build_temperature_record 21 500 ["box-9"]], []⟩) ∧
    [build_temperature_record 21 500 ["box-9"]]
      ≠ (FlusherState.mk true [] []).records := by
  constructor
  · have hround : py_round2 21 = (21 : ℚ) := by
      unfold py_round2 round_half_even
      norm_num
    simp [temperature_route, get_average_temperature_for_fresh_data, avg_step,
      collect_temperature_record, hround, get_temperature_status]
    norm_num
  · simp

/-- Claim C9: every value exposed to callers is the rounded mean, not the
raw mean: a `/temperature` response built from a live mean `m` carries
`round(m, 2)` and passes the same rounded value to `collect`; the
service-level response (whose verbatim serialization is what gets cached)
likewise carries and collects `round(average, 2)`; and for the inputs
20.0, 20.0, 20.1 the rounded mean differs from the exact mean. -/
theorem c9_rounded_average :
    (∀ (phenomenon : String) (env : FetchEnv) (now : Timestamp)
        (sensebox_ids : List String)
        (latest_record : Option (Option TemperatureRecord))
        (collect_time : Timestamp) (st : FlusherState) (m : ℚ),
      get_average_temperature_for_fresh_data phenomenon env now sensebox_ids
          = some m →
        temperature_route phenomenon env now sensebox_ids latest_record
            collect_time st
          = (RouteResult.ok ⟨py_round2 m, get_temperature_status (py_round2 m)⟩,
             { st with records := st.records
                 ++ [build_temperature_record (py_round2 m) collect_time
                      sensebox_ids] })) ∧
    (∀ (average : ℚ) (sources : List String) (newest : Option Timestamp)
        (latest_record : Option (Option TemperatureRecord))
        (now : Timestamp) (st : FlusherState),
      get_latest_temperature_response (some average, sources, newest)
          latest_record now st
        = (some ⟨py_round2 average, get_temperature_status (py_round2 average),
            newest.map (fun ts => now - ts)⟩,
           { st with records := st.records
               ++ [build_temperature_record (py_round2 average) now sources] })) ∧
    py_round2 ((20 + 20 + 201 / 10) / 3) ≠ ((20 + 20 + 201 / 10) / 3 : ℚ) := by
  refine ⟨?_, ?_, ?_⟩
  · intro phenomenon env now sensebox_ids latest_record collect_time st m hlive
    simp [temperature_route, hlive, collect_temperature_record]
  · intro average sources newest latest_record now st
    simp [get_latest_temperature_response, collect_temperature_record]
  · have hmean : ((20 + 20 + 201 / 10) / 3 : ℚ) = 601 / 30 := by norm_num
    rw [hmean]
    have hfloor : (⌊(601 / 30 : ℚ) * 100⌋ : Int) = 2003 := by norm_num
    unfold py_round2 round_half_even
    rw [hfloor]
    norm_num

/-- Witness for C9: with one fresh measurement of 20 the route serves the
(rounded) value 20 with status "Good" and collects that record, and the
service-level response does the same with data age 100. -/
theorem c9_rounded_average_witness :
    get_average_temperature_for_fresh_data "Temperatur" (c1_env 900) 1000
        ["box-1"] = some 20
    ∧ temperature_route "Temperatur" (c1_env 900) 1000 ["box-1"] none 1005
        ⟨true, [], []⟩
      = (RouteResult.ok ⟨20, "Good"⟩,
         ⟨true, [build_temperature_record 20 1005 ["box-1"]], []⟩)
    ∧ get_latest_temperature_response (some 20, ["box-1"], some 900) none 1000
        ⟨true, [], []⟩
      = (some ⟨20, "Good", some 100⟩,
         ⟨true, [build_temperature_record 20 1000 ["box-1"]], []⟩) := by
  have hlive : get_average_temperature_for_fresh_data "Temperatur" (c1_env 900)
      1000 ["box-1"] = some 20 := by
    simp [get_average_temperature_for_fresh_data, avg_step, c1_env, c1_box,
      extract_temperature_value, extract_from_sensors, is_data_fresh]
  have hround : py_round2 20 = (20 : ℚ) := by
    unfold py_round2 round_half_even
    norm_num
  have hstatus : get_temperature_status 20 = "Good" := by
    unfold get_temperature_status
    norm_num
  have ha := c9_rounded_average.1 "Temperatur" (c1_env 900) 1000 ["box-1"] none
    1005 ⟨true, [], []⟩ 20 hlive
  have hb := c9_rounded_average.2.1 20 ["box-1"] (some 900) none 1000
    ⟨true, [], []⟩
  rw [hround, hstatus] at ha hb
  refine ⟨hlive, ?_, ?_⟩
  · simpa using ha
  · simpa using hb

/-- Claim C10: when the refresh acquired the lock, a recomputation that
yields no response leaves the cached entry exactly as it was and releases
the lock; a recomputation that raises also releases the lock (and the
exception propagates); a successful recomputation writes the cache and
still releases the lock. -/
theorem c10_refresh_no_response_frame (c : CacheState)
    (h : c.lock_held = false) :
    refresh_cached_temperature_response true (Except.ok none) c
        = (c, Except.ok ())
    ∧ (∀ e, refresh_cached_temperature_response true (Except.error e) c
        = (c, Except.error e))
    ∧ (∀ response : TemperatureResponse,
        (refresh_cached_temperature_response true (Except.ok (some response)) c).1
          = ⟨some response, false⟩) := by
  obtain ⟨cached, lock⟩ := c
  simp only at h
  subst h
  refine ⟨?_, ?_, ?_⟩
  · simp [refresh_cached_temperature_response, acquire_lock, release_lock]
  · intro e
    simp [refresh_cached_temperature_response, acquire_lock, release_lock]
  · intro response
    simp [refresh_cached_temperature_response, acquire_lock, release_lock]

/-- Witness for C10: with an idle lock and a previously cached response,
the empty recomputation and the raising recomputation leave the state
unchanged with the lock released, and the successful one replaces the
cached entry with the lock released. -/
theorem c10_refresh_no_response_frame_witness :
    refresh_cached_temperature_response true (Except.ok none)
        ⟨some ⟨20, "Good", none⟩, false⟩
      = (⟨some ⟨20, "Good", none⟩, false⟩, Except.ok ())
    ∧ refresh_cached_temperature_response true (Except.error "boom")
        ⟨some ⟨20, "Good", none⟩, false⟩
      = (⟨some ⟨20, "Good", none⟩, false⟩, Except.error "boom")
    ∧ (refresh_cached_temperature_response true
        (Except.ok (some ⟨25, "Good", some 10⟩))
        ⟨some ⟨20, "Good", none⟩, false⟩).1
      = ⟨some ⟨25, "Good", some 10⟩, false⟩ := by
  have h := c10_refresh_no_response_frame ⟨some ⟨20, "Good", none⟩, false⟩ rfl
  exact ⟨h.1, h.2.1 "boom", h.2.2 ⟨25, "Good", some 10⟩⟩

end Hivebox
